import Mathlib

/-!
Verification development for the pydust entity/schema store
(src/dust/__init__.py, src/dust/entity.py, src/dust/persist/sqlpersist.py,
src/dust/persist/mysqlpersist.py).

The Python code is shallowly embedded: Python runtime values that flow
through the access engine are modelled by `PyScalar`/`PyVal`; entity
attribute dictionaries by association lists (`EMap`) with Python dict
semantics (insertion order, in-place replacement); exceptions by
`Option`/`Except`.  Containers in pydust only ever hold scalar values
(a field's declared datatype is a scalar kind), so the container
constructors carry `List PyScalar`.
-/

namespace Pydust

/-- Datatypes enum from src/dust/__init__.py. -/
inductive Datatypes where
  | INT
  | NUMERIC
  | BOOL
  | STRING
  | BYTES
  | JSON
  | ENTITY
deriving DecidableEq, Repr

/-- ValueTypes enum from src/dust/__init__.py. -/
inductive ValueTypes where
  | SINGLE
  | SET
  | LIST
  | MAP
deriving DecidableEq, Repr

/-- Operation enum from src/dust/__init__.py (the members the claims use). -/
inductive Operation where
  | SET
  | ADD
  | GET
  | PEEK
  | VISIT
  | CHANGE
  | DEL
  | WALK
deriving DecidableEq, Repr

/-- Committed enum from src/dust/__init__.py. -/
inductive Committed where
  | CREATED
  | UPDATED
  | DELETED
  | SAVED
deriving DecidableEq, Repr

/-- The runtime value held by `Entity.committed`.  entity.py only ever
assigns Python booleans (`Entity.__init__` sets `False`,
`Store._set_uncommitted` sets `False`), while sqlpersist.py compares the
attribute against `Committed` enum members; both shapes are representable. -/
inductive CommittedVal where
  | pybool (b : Bool)
  | enum (c : Committed)
deriving DecidableEq, Repr

/-- Python `==` between the value of `entity.committed` and a `Committed`
enum member: a `bool` never equals an `Enum` member (Committed is a plain
Enum, not IntEnum), and two members are equal iff they are the same member. -/
def committed_eq : CommittedVal → Committed → Bool
  | .pybool _, _ => false
  | .enum c, c' => decide (c = c')

/-- A scalar Python value stored in an attribute slot or inside a container:
int, str, bool, None, a live Entity handle (identified by its global id,
entities being canonical per global id in `_entity_map`), or the bound
method object `value.global_id` (produced by the missing-parentheses
expression in `Store._access_data_set_value`). -/
inductive PyScalar where
  | int (n : Int)
  | str (s : String)
  | bool (b : Bool)
  | none
  | ent (gid : String)
  | method (gid : String)
deriving DecidableEq, Repr

/-- A Python value in an attribute slot: a scalar, a list, or a set.
A set is kept as a duplicate-free list in insertion order. -/
inductive PyVal where
  | scalar (v : PyScalar)
  | list (xs : List PyScalar)
  | set (xs : List PyScalar)
deriving DecidableEq, Repr

/-- Python `==` on scalars.  Structural equality models it for the shapes
the store produces: an `Entity` is canonical per global id, a bound method
is never equal to a string or int, cross-kind comparisons are `False`. -/
def pyEqScalar (a b : PyScalar) : Bool := decide (a = b)

/-- Python `in` on a container: membership by `==`. -/
def pyMemScalar (x : PyScalar) (xs : List PyScalar) : Bool :=
  xs.any (fun y => pyEqScalar x y)

/-- Python `==` on attribute values: scalars by `==`, lists elementwise,
sets by mutual membership, cross-kind `False`. -/
def pyEq : PyVal → PyVal → Bool
  | .scalar a, .scalar b => pyEqScalar a b
  | .list xs, .list ys => decide (xs = ys)
  | .set xs, .set ys =>
      xs.all (fun a => pyMemScalar a ys) && ys.all (fun b => pyMemScalar b xs)
  | _, _ => false

/-- Python `x in v` where `v` is a stored attribute value.  Defined on
lists and sets; `in` on a scalar raises (`TypeError`), modelled as `none`
(`in` on a string would be substring search, which no store value hits). -/
def pyMem (x : PyScalar) : PyVal → Option Bool
  | .list xs => some (pyMemScalar x xs)
  | .set xs => some (pyMemScalar x xs)
  | .scalar _ => Option.none

/-- `set.add`: no-op when the element is already a member, else append. -/
def pySetAdd (xs : List PyScalar) (x : PyScalar) : List PyScalar :=
  if pyMemScalar x xs then xs else xs ++ [x]

/-- `set.update(iterable)`: add each element in iteration order. -/
def pySetUpdate (xs : List PyScalar) (vs : List PyScalar) : List PyScalar :=
  vs.foldl pySetAdd xs

/-- `set(iterable)`: deduplicate keeping first occurrences. -/
def pySetOf (vs : List PyScalar) : List PyScalar := pySetUpdate [] vs

/-- Python `+` / `+=` on the value kinds the store adds: int+int,
str+str (concatenation), list+list; anything else raises (`TypeError`). -/
def pyAdd : PyVal → PyVal → Option PyVal
  | .scalar (.int a), .scalar (.int b) => some (.scalar (.int (a + b)))
  | .scalar (.str a), .scalar (.str b) => some (.scalar (.str (a ++ b)))
  | .list xs, .list ys => some (.list (xs ++ ys))
  | _, _ => Option.none

/-- Python `str.split(":")`, written over the character list so it
evaluates in the kernel. -/
def pySplitColonAux : List Char → List Char → List String
  | [], acc => [String.mk acc.reverse]
  | c :: rest, acc =>
      if c = ':' then String.mk acc.reverse :: pySplitColonAux rest []
      else pySplitColonAux rest (c :: acc)

def pySplitColon (s : String) : List String := pySplitColonAux s.toList []

/-- Python `int(s)` on a decimal string, `none` on failure (the callers in
entity.py either wrap it in try/except or crash on the exception). -/
def pyStrToInt (s : String) : Option Int :=
  let digits (cs : List Char) : Option Int :=
    if cs.isEmpty then Option.none
    else cs.foldlM (fun acc c =>
      if c.isDigit then some (acc * 10 + (Int.ofNat (c.toNat - '0'.toNat)))
      else Option.none) 0
  match s.toList with
  | '-' :: rest => (digits rest).map (fun n => -n)
  | cs => digits cs

/-- An entity attribute dictionary: qualified field name → value,
insertion-ordered like a Python dict. -/
def EMap := List (String × PyVal)
deriving DecidableEq, Repr

/-- `d.get(k)` / `k in d` support. -/
def emapGet (em : EMap) (k : String) : Option PyVal :=
  match em with
  | [] => Option.none
  | (k', v) :: rest => if k' = k then some v else emapGet rest k

/-- `d[k] = v`: replace in place when present, else append (dict order). -/
def emapSet (em : EMap) (k : String) (v : PyVal) : EMap :=
  match em with
  | [] => [(k, v)]
  | (k', v') :: rest =>
      if k' = k then (k, v) :: rest else (k', v') :: emapSet rest k v

/-- A field descriptor as the access engine sees it: the enum member's
`datatype`/`valuetype` properties, its plain name and its qualified
(global) name `unit:type:field`. -/
structure Field where
  name : String
  global_name : String
  datatype : Datatypes
  valuetype : ValueTypes
deriving DecidableEq, Repr

/-- The base-field qualified names produced by `Store._get_base_fields`
(`entity_meta:_entity_base:<field>`). -/
def unit_field : String := "entity_meta:_entity_base:unit"
def entity_id_field : String := "entity_meta:_entity_base:entity_id"
def meta_type_field : String := "entity_meta:_entity_base:meta_type"
def committed_field : String := "entity_meta:_entity_base:committed"

/-- The qualified name of `UnitMeta.id_cnt` (declared under the
`entity_meta` unit on the `unit` type). -/
def id_cnt_gfn : String := "entity_meta:unit:id_cnt"

/-- `UnitMeta.id_cnt` as a field descriptor: datatype INT, valuetype SINGLE. -/
def id_cnt_field : Field := ⟨"id_cnt", id_cnt_gfn, .INT, .SINGLE⟩

/-- The qualified name of `UnitMeta.name`. -/
def unit_name_gfn : String := "entity_meta:unit:name"

/-- The mutable per-entity state `Store._access_data_set_value` touches:
the entity's attribute dict from `_entity_map[gid][0]` and the Python
`Entity` object's `committed` attribute. -/
structure EState where
  e_map : EMap
  committed : CommittedVal
deriving DecidableEq, Repr

/-- `Store._set_uncommitted`: sets `e.committed = False` and
`e_map[committed_field] = False`, returning `True` (the changed flag). -/
def set_uncommitted (st : EState) : EState :=
  { e_map := emapSet st.e_map committed_field (.scalar (.bool false)),
    committed := .pybool false }

/-- Write a value into the entity state's attribute dict. -/
def estWrite (st : EState) (gfn : String) (v : PyVal) : EState :=
  { st with e_map := emapSet st.e_map gfn v }

/-- The branch of `Store._access_data_set_value` taken when
`field.datatype == Datatypes.ENTITY and isinstance(value, Entity)`;
`g` is `value.global_id()` (equivalently the handle's identity). -/
def access_set_entity_value (st : EState) (field : Field) (g : String)
    (value : PyVal) : Option (Bool × PyVal × EState) :=
  let gfn := field.global_name
  if field.valuetype = .LIST then
    -- changed = Store._set_uncommitted(...); e_map.setdefault(gfn, []).append(value.global_id())
    let st1 := set_uncommitted st
    match emapGet st1.e_map gfn with
    | Option.none => some (true, value, estWrite st1 gfn (.list [.str g]))
    | some (.list xs) => some (true, value, estWrite st1 gfn (.list (xs ++ [.str g])))
    | some _ => Option.none
  else if field.valuetype = .SET then
    -- if not gfn in e_map or not value.global_id in e_map[gfn]:
    --     e_map.setdefault(gfn, set()).add(value.global_id()); changed = ...
    -- NOTE: the source writes `value.global_id` (the bound method, no
    -- parentheses), so the membership test compares the method object.
    match emapGet st.e_map gfn with
    | Option.none =>
        some (true, value, set_uncommitted (estWrite st gfn (.set (pySetAdd [] (.str g)))))
    | some stored =>
        match pyMem (.method g) stored with
        | Option.none => Option.none
        | some b =>
            if b then some (false, value, st)
            else
              match stored with
              | .set xs =>
                  some (true, value, set_uncommitted (estWrite st gfn (.set (pySetAdd xs (.str g)))))
              | _ => Option.none
  else
    -- if e_map.get(gfn, None) != value: e_map[gfn] = value.global_id(); changed = ...
    if pyEq ((emapGet st.e_map gfn).getD (.scalar .none)) value then
      some (false, value, st)
    else
      some (true, value, set_uncommitted (estWrite st gfn (.scalar (.str g))))

/-- The `all_included` scan of `Store._access_data_set_value`:
`for v in value: all_included = v in old_values; if not all_included: break`. -/
def all_included_loop (stored : PyVal) : List PyScalar → Option Bool
  | [] => some true
  | v :: rest => do
      let b ← pyMem v stored
      if b then all_included_loop stored rest else some false

/-- The bulk branch of `Store._access_data_set_value` for a SET field fed
a Python list: the `all_included` scan, then
`e_map.setdefault(gfn, set()).update(value)` when not all included. -/
def access_set_bulk (st : EState) (gfn : String) (vs : List PyScalar)
    (value : PyVal) : Option (Bool × PyVal × EState) :=
  match emapGet st.e_map gfn with
  | Option.none =>
      -- all_included stays False; update on a fresh set
      some (true, value, set_uncommitted (estWrite st gfn (.set (pySetUpdate [] vs))))
  | some stored =>
      match all_included_loop stored vs with
      | Option.none => Option.none
      | some all_included =>
          if all_included then some (false, value, st)
          else
            match stored with
            | .set xs =>
                some (true, value, set_uncommitted (estWrite st gfn (.set (pySetUpdate xs vs))))
            | _ => Option.none

/-- The non-entity part of `Store._access_data_set_value` (everything
after the `field.datatype == Datatypes.ENTITY and isinstance(value, Entity)`
guard fails). -/
def access_set_generic (st : EState) (field : Field) (value : PyVal)
    (operation : Operation) : Option (Bool × PyVal × EState) :=
  let gfn := field.global_name
  match value with
  | .list vs =>
      if field.valuetype = .SET then access_set_bulk st gfn vs value
      else
        -- a list value on a LIST field (or on SINGLE/MAP) falls through to
        -- the final else: CHANGE or compare-and-assign
        if operation = .CHANGE then
          match emapGet st.e_map gfn with
          | Option.none => Option.none
          | some stored =>
              match pyAdd stored value with
              | Option.none => Option.none
              | some newv => some (true, newv, set_uncommitted (estWrite st gfn newv))
        else
          if pyEq ((emapGet st.e_map gfn).getD (.scalar .none)) value then
            some (false, value, st)
          else
            some (true, value, set_uncommitted (estWrite st gfn value))
  | .set _ =>
      -- a set value: both container guards fail (isinstance checks), final else
      if field.valuetype = .LIST then
        -- appending a set object into a list is outside the model
        Option.none
      else
        if operation = .CHANGE then Option.none  -- set += raises TypeError
        else
          if pyEq ((emapGet st.e_map gfn).getD (.scalar .none)) value then
            some (false, value, st)
          else
            some (true, value, set_uncommitted (estWrite st gfn value))
  | .scalar v =>
      if field.valuetype = .LIST then
        -- changed = ...; e_map.setdefault(gfn, []).append(value)
        let st1 := set_uncommitted st
        match emapGet st1.e_map gfn with
        | Option.none => some (true, value, estWrite st1 gfn (.list [v]))
        | some (.list xs) => some (true, value, estWrite st1 gfn (.list (xs ++ [v])))
        | some _ => Option.none
      else if field.valuetype = .SET then
        -- if not gfn in e_map or not value in e_map[gfn]: setdefault(set()).add(value)
        match emapGet st.e_map gfn with
        | Option.none =>
            some (true, value, set_uncommitted (estWrite st gfn (.set (pySetAdd [] v))))
        | some stored =>
            match pyMem v stored with
            | Option.none => Option.none
            | some b =>
                if b then some (false, value, st)
                else
                  match stored with
                  | .set xs =>
                      some (true, value, set_uncommitted (estWrite st gfn (.set (pySetAdd xs v))))
                  | _ => Option.none
      else
        if operation = .CHANGE then
          -- e_map[gfn] += value; value = e_map[gfn]; changed = ...
          match emapGet st.e_map gfn with
          | Option.none => Option.none
          | some stored =>
              match pyAdd stored value with
              | Option.none => Option.none
              | some newv => some (true, newv, set_uncommitted (estWrite st gfn newv))
        else
          if pyEq ((emapGet st.e_map gfn).getD (.scalar .none)) value then
            some (false, value, st)
          else
            some (true, value, set_uncommitted (estWrite st gfn value))

/-- `Store._access_data_set_value(obj, field, value, operation)` for an
`Entity` obj.  Returns `(changed, returned value, new entity state)`;
`Option.none` models an uncaught Python exception (KeyError on CHANGE of
an absent field, AttributeError/TypeError on shape mismatches). -/
def access_data_set_value (st : EState) (field : Field) (value : PyVal)
    (operation : Operation) : Option (Bool × PyVal × EState) :=
  match value with
  | .scalar (.ent g) =>
      if field.datatype = .ENTITY then access_set_entity_value st field g value
      else access_set_generic st field value operation
  | _ => access_set_generic st field value operation

/-- The process-wide state the access engine consults: `_entity_map`
(global id → `(e_map, entity)`) together with the slices of `_enum_map`
that `_resolve_global_id` and entity creation read — the unit entities
registered by name (`enum_map[unit_name]` is an `Entity` whose meta-type
is the `unit` type) and the meta-type entities registered by their global
id (`enum_map[meta_type_gid]` is a FieldProps member with that name). -/
structure Store where
  entity_map : List (String × EState)
  units : List (String × String)
  type_names : List (String × String)
deriving DecidableEq, Repr

/-- `_entity_map` lookup (first occurrence). -/
def storeMapGet : List (String × EState) → String → Option EState
  | [], _ => Option.none
  | (k, e) :: rest, gid => if k = gid then some e else storeMapGet rest gid

def storeGet (st : Store) (gid : String) : Option EState :=
  storeMapGet st.entity_map gid

/-- Replace the state stored under `gid` (in place, first occurrence). -/
def storeMapSet : List (String × EState) → String → EState → List (String × EState)
  | [], gid, e => [(gid, e)]
  | (k, e') :: rest, gid, e =>
      if k = gid then (gid, e) :: rest else (k, e') :: storeMapSet rest gid e

def storeSet (st : Store) (gid : String) (e : EState) : Store :=
  { st with entity_map := storeMapSet st.entity_map gid e }

/-- `Entity._resolve_global_id(value)` for a string argument, against the
store.  Returns `Except.error ()` for the uncaught AttributeError the
source raises when the unit is known but the entity itself is absent from
`_entity_map` (`entity` is then `None` and `entity.meta_type` fails);
`Except.ok none` when the string does not resolve; `Except.ok (some eid)`
when it resolves (the source then returns the unit entity, the id and the
meta-type entity — callers only test and use the id, so the id is
returned here). -/
def resolve_global_id (st : Store) (s : String) : Except Unit (Option Int) :=
  let parts := pySplitColon s
  let eid? := parts[1]?.bind pyStrToInt
  match eid? with
  | Option.none => .ok Option.none
  | some eid =>
      if parts.length = 3 then
        match parts[0]?.bind (fun u => List.lookup u st.units) with
        | Option.none => .ok Option.none
        | some _ =>
            match storeGet st s with
            | Option.none => .error ()   -- entity is None; entity.meta_type raises
            | some est =>
                -- entity.meta_type and isinstance(..., Entity) and ... in enum_map
                match emapGet est.e_map meta_type_field with
                | some (.scalar (.str mt_gid)) =>
                    if (List.lookup mt_gid st.type_names).isSome then .ok (some eid)
                    else .ok Option.none
                | _ => .ok Option.none
      else .ok Option.none

/-- `Store._access_data_get_value(obj, key, default_value)` for an
`Entity` obj: fetch the stored value; a stored string that resolves to a
known entity with a truthy (non-zero) id is dereferenced into the live
entity handle; an absent field yields the default. -/
def access_data_get_value (st : Store) (em : EMap) (gfn : String)
    (default_value : PyVal) : Except Unit PyVal :=
  match emapGet em gfn with
  | some v =>
      match v with
      | .scalar (.str s) => do
          match ← resolve_global_id st s with
          | some eid =>
              if eid ≠ 0 then .ok (.scalar (.ent s)) else .ok v
          | Option.none => .ok v
      | _ => .ok v
  | Option.none => .ok default_value

/-- The per-entity slice of `Store.access(operation, value, ...)` once the
path has resolved to an existing entity followed by a single field step
(the shape `Entity.access` produces): SET/ADD/CHANGE dispatch into
`_access_data_set_value` and write the entity state back; GET reads via
`_access_data_get_value` — with the hard-coded `None` default of
entity.py line 290, ignoring the caller's `value` argument.  Returns
`(store, changed, result)`; the change notification of lines 293-296 is
emitted iff `changed` (see `create_message_gate`). -/
def store_access_field (st : Store) (gid : String) (field : Field)
    (operation : Operation) (value : PyVal) : Except Unit (Store × Bool × PyVal) :=
  match storeGet st gid with
  | Option.none => .error ()
  | some est =>
      if operation = .SET ∨ operation = .ADD ∨ operation = .CHANGE then
        match access_data_set_value est field value operation with
        | Option.none => .error ()
        | some (changed, rv, est') => .ok (storeSet st gid est', changed, rv)
      else if operation = .GET then do
        let v ← access_data_get_value st est.e_map field.global_name (.scalar .none)
        .ok (st, false, v)
      else .error ()

/-- `_create_message` filter (entity.py lines 660-678) composed with the
`if changed` guard of `Store.access` line 295: a notification reaches the
message bus iff the operation changed state and the touched entity's unit
is neither the messages unit, nor the foundational `entity` unit, nor any
unit whose name ends in `_meta`. -/
def pyEndsWith (s suffix : String) : Bool :=
  decide (s.toList.reverse.take suffix.toList.length = suffix.toList.reverse)

def create_message_gate (messages_unit unit_name : String) (changed : Bool) : Bool :=
  changed && !(unit_name = messages_unit || unit_name = "entity" || pyEndsWith unit_name "_meta")

/-- `Store.increment_unit_counter(unit_name)`: fetch the unit entity from
`_enum_map` and run `unit.access(Operation.CHANGE, 1, UnitMeta.id_cnt)`. -/
def increment_unit_counter (st : Store) (unit_name : String) :
    Except Unit (Store × PyVal) := do
  match List.lookup unit_name st.units with
  | Option.none => .error ()   -- KeyError in _enum_map
  | some ugid =>
      let (st', _, rv) ← store_access_field st ugid id_cnt_field .CHANGE (.scalar (.int 1))
      .ok (st', rv)

/-- A Python value appearing as a `Store.access` path element. -/
inductive PathElem where
  | pystr (s : String)
  | pyint (n : Int)
  | pynone
  | pyentity (gid : String)
  | pyfieldprops (type_name : String)
  | pyfield (f : Field)
deriving DecidableEq, Repr

/-- The entity-locator resolution at the head of `Store.access`
(entity.py lines 230-244): `path[0]` resolving as a global id becomes the
local ref; otherwise a `(unit, id-or-None, FieldProps)` triple builds one
(incrementing the unit counter when the id is None); any other shape
leaves no local ref, sending the operation into the whole-store-scan
fallback of lines 266-291. -/
def access_resolve_locator (st : Store) (path : List PathElem) :
    Except Unit (Store × Option String) :=
  match path with
  | [] => .ok (st, Option.none)
  | p0 :: rest => do
      let eid? ← match p0 with
        | .pystr s => resolve_global_id st s
        | _ => .ok Option.none   -- _resolve_global_id: not a str
      match eid?, p0 with
      | some _, .pystr s => .ok (st, some s)
      | _, _ =>
          match rest with
          | p1 :: .pyfieldprops tname :: _ =>
              match p1 with
              | .pyint n =>
                  match p0 with
                  | .pystr u => .ok (st, some (u ++ ":" ++ toString n ++ ":" ++ tname))
                  | _ => .error ()   -- Entity._ref on a non-str unit raises
              | .pynone =>
                  match p0 with
                  | .pystr u => do
                      let (st', rv) ← increment_unit_counter st u
                      match rv with
                      | .scalar (.int n) =>
                          .ok (st', some (u ++ ":" ++ toString n ++ ":" ++ tname))
                      | _ => .error ()
                  | _ => .error ()
              | _ => .ok (st, Option.none)
          | _ => .ok (st, Option.none)

/-! ## SQL persistence engine (src/dust/persist/sqlpersist.py,
dialect hooks from src/dust/persist/mysqlpersist.py) -/

/-- `MySQLPersist.convert_value_to_db(field, value)`: booleans to 1/0
(`value == True` also matches the int 1), entity handles to their global
id, everything else passed through. -/
def convert_value_to_db (field : Field) (v : PyScalar) : PyScalar :=
  if field.datatype = .BOOL then
    match v with
    | .bool true => .int 1
    | .int 1 => .int 1
    | _ => .int 0
  else
    match v with
    | .ent g => if field.datatype = .ENTITY then .str g else .ent g
    | _ => v

/-- `MySQLPersist.convert_value_from_db(field, value)`. -/
def convert_value_from_db (field : Field) (v : PyScalar) : PyScalar :=
  if field.datatype = .BOOL then
    match v with
    | .int 1 => .bool true
    | _ => .bool false
  else v

/-- `SqlPersist.map_value_to_db(field, entity)`: GET the field off the
entity (dereferencing stored references), return `None` untouched, and
convert per valuetype — a scalar for SINGLE, a converted element list for
SET/LIST.  MAP's `json.dumps` serialization is not modelled (no claim
touches a MAP field). -/
def map_value_to_db (st : Store) (field : Field) (em : EMap) :
    Except Unit (Option PyVal) := do
  let value ← access_data_get_value st em field.global_name (.scalar .none)
  match value with
  | .scalar .none => .ok Option.none
  | v =>
      if field.valuetype = .SINGLE then
        match v with
        | .scalar x => .ok (some (.scalar (convert_value_to_db field x)))
        | _ => .ok (some v)
      else if field.valuetype = .SET ∨ field.valuetype = .LIST then
        match v with
        | .list xs => .ok (some (.list (xs.map (convert_value_to_db field))))
        | .set xs => .ok (some (.list (xs.map (convert_value_to_db field))))
        | .scalar _ => .error ()   -- iterating a scalar raises TypeError
      else .error ()

/-- One row of an auxiliary (multi-value) table
`{unit}_{type}_{field}`: `(_global_id, _value_cnt, _<field>_value)`. -/
structure AuxRow where
  global_id : String
  value_cnt : Int
  value : PyScalar
deriving DecidableEq, Repr

/-- The dialect's DELETE template: `DELETE FROM tbl WHERE _global_id = gid`. -/
def delete_aux_rows (tbl : List AuxRow) (gid : String) : List AuxRow :=
  tbl.filter (fun r => r.global_id ≠ gid)

/-- The insert loop of `SqlPersist.__update_entity_multivalues`:
`for value_cnt, value in enumerate(multivalues_array)` — one row per
element, `_value_cnt` counting up from the start index. -/
def insert_aux_rows (gid : String) : Int → List PyScalar → List AuxRow
  | _, [] => []
  | i, v :: vs => ⟨gid, i, v⟩ :: insert_aux_rows gid (i + 1) vs

/-- The effect of `SqlPersist.__update_entity_multivalues` on one
auxiliary table: when `need_delete`, first delete every row of this
entity, then (`if multivalues_array:` — skipping `None` and the empty
list) insert the current full collection numbered from zero. -/
def update_entity_multivalues (tbl : List AuxRow) (gid : String)
    (mv : Option (List PyScalar)) (need_delete : Bool) : List AuxRow :=
  let tbl1 := if need_delete then delete_aux_rows tbl gid else tbl
  match mv with
  | Option.none => tbl1
  | some vs => if vs = [] then tbl1 else tbl1 ++ insert_aux_rows gid 0 vs

/-- The auxiliary-table effect of `SqlPersist.update_entity` for one
SET/LIST field of an entity in state `em`: the multivalue array is
computed by `map_value_to_db` and handed to `__update_entity_multivalues`
with `need_delete=True`. -/
def update_entity_aux_table (st : Store) (em : EMap) (field : Field)
    (gid : String) (tbl : List AuxRow) : Except Unit (List AuxRow) := do
  let mv ← map_value_to_db st field em
  match mv with
  | Option.none => .ok (update_entity_multivalues tbl gid Option.none true)
  | some (.list vs) => .ok (update_entity_multivalues tbl gid (some vs) true)
  | some _ => .error ()

/-- The attributes of a Python `Entity` object that
`SqlPersist.persist_entities` reads. -/
structure ModelEntity where
  gid : String
  committed : CommittedVal
deriving DecidableEq, Repr

/-- `Entity.__init__`: a brand-new entity; `self.committed = False`
(a Python bool, not a `Committed` member). -/
def entity_init (unit_name : String) (eid : Int) (type_name : String) : ModelEntity :=
  ⟨unit_name ++ ":" ++ toString eid ++ ":" ++ type_name, .pybool false⟩

/-- A statement issued by the persistence pass. -/
inductive PersistAction where
  | insert (gid : String)
  | update (gid : String)
deriving DecidableEq, Repr

/-- `SqlPersist.persist_entities(entities)`: dispatch each entity on
`e.committed == Committed.CREATED / UPDATED / DELETED` (DELETED is a
no-op `pass`; a value matching no branch is skipped), all under the one
connection opened at the top of the function. -/
def persist_entities : List ModelEntity → List PersistAction
  | [] => []
  | e :: rest =>
      if committed_eq e.committed .CREATED then .insert e.gid :: persist_entities rest
      else if committed_eq e.committed .UPDATED then .update e.gid :: persist_entities rest
      else persist_entities rest

/-- A registered meta-type as `SqlPersist.generate_schema` sees it:
the FieldProps member's `type_name` and its declared fields. -/
structure MetaDesc where
  type_name : String
  fields : List Field
deriving DecidableEq, Repr

/-- `unit_meta.type_name[0] == "_"` (type names are nonempty). -/
def starts_with_underscore (s : String) : Bool :=
  match s.toList with
  | '_' :: _ => true
  | _ => false

/-- The table names `SqlPersist.__sql_tables` builds for one type: the
primary table `{unit}_{type}` followed by one auxiliary table
`{unit}_{type}_{field}` per SET/LIST field. -/
def sql_table_names (unit_name : String) (m : MetaDesc) : List String :=
  let table_name := unit_name ++ "_" ++ m.type_name
  table_name ::
    (m.fields.filter (fun f => f.valuetype = .LIST ∨ f.valuetype = .SET)).map
      (fun f => table_name ++ "_" ++ f.name)

/-- The tables `SqlPersist.generate_schema(unit_name, unit_meta_enums)`
emits: every type is registered into `__persisted_types`, but table
schemas are only generated and created for types whose name does not
start with an underscore. -/
def generate_schema_tables (unit_name : String) (metas : List MetaDesc) : List String :=
  metas.foldl
    (fun acc m =>
      if starts_with_underscore m.type_name then acc
      else acc ++ sql_table_names unit_name m) []

/-- The `__persisted_types` registration performed by `generate_schema`:
unconditional, underscore-prefixed types included. -/
def generate_schema_persisted (metas : List MetaDesc) : List String :=
  metas.map (fun m => m.type_name)

/-- `SqlPersist.load_type(unit_meta)`: entities start out as the empty
list and `load_entities` only runs when the type name does not start
with an underscore (`loader` stands for that call). -/
def load_type (m : MetaDesc) (loader : MetaDesc → List String) : List String :=
  if starts_with_underscore m.type_name then [] else loader m

/-! ## Serializer (Entity.to_json / Entity.from_json) -/

/-- `Entity.__to_json`: walk the entity's attribute dict in order; for a
SET/LIST field whose value is a container, copy its elements into a JSON
array (a set serializes in iteration order); everything else is emitted
raw.  `Store._get_field_config` raising KeyError on an unregistered field
is `none`. -/
def to_json (schema : List (String × Field)) :
    EMap → Option (List (String × PyVal))
  | [] => some []
  | p :: rest => do
      let cfg ← List.lookup p.1 schema
      let v := if cfg.valuetype = .SET ∨ cfg.valuetype = .LIST then
          match p.2 with
          | .list xs => PyVal.list xs
          | .set xs => PyVal.list xs
          | w => w
        else p.2
      let tail ← to_json schema rest
      some ((p.1, v) :: tail)

/-- The global id of the `EntityTypes.unit` meta-type entity
(`entity_meta:3:unit`, id_value 3 under the `entity_meta` unit). -/
def unit_type_gid : String := "entity_meta:3:unit"

/-- `UnitMeta.name` as a field descriptor. -/
def unit_name_field : Field := ⟨"name", unit_name_gfn, .STRING, .SINGLE⟩

/-- The get-or-create step of `Store.access` for a resolved
`(unit_name, entity_id, meta_type)` locator: reuse the entity when the
global id is known, else `Store._create_entity` + `_add_entity_to_store`
(base fields in dict-literal order: unit, entity_id, meta_type,
committed; `Entity.__init__` sets `committed = False`). -/
def store_get_or_create (st : Store) (uname : String) (eid : Int)
    (tname mt_gid : String) : Except Unit (Store × String) :=
  let gid := uname ++ ":" ++ toString eid ++ ":" ++ tname
  match storeGet st gid with
  | some _ => .ok (st, gid)
  | Option.none =>
      match List.lookup uname st.units with
      | Option.none => .error ()   -- KeyError in _enum_map
      | some ugid =>
          .ok ({ st with entity_map := st.entity_map ++ [(gid,
            ⟨[(unit_field, .scalar (.str ugid)),
              (entity_id_field, .scalar (.int eid)),
              (meta_type_field, .scalar (.str mt_gid)),
              (committed_field, .scalar (.bool false))], .pybool false⟩)] }, gid)

/-- `Entity.from_json(e_map)`: read the three base fields first (unit by
id under the foundational `entity` unit, its name, the meta-type member
from `_enum_map`, the entity id), get-or-create the target entity, then
replay every remaining field through SET — coercing a JSON array into a
Python set when the declared cardinality is SET. -/
def from_json (schema : List (String × Field)) (st : Store)
    (jm : List (String × PyVal)) : Except Unit (Store × String) := do
  let uv ← match List.lookup unit_field jm with
    | some v => Except.ok v
    | Option.none => Except.error ()
  let us ← match uv with
    | .scalar (.str s) => Except.ok s
    | _ => Except.error ()   -- .split on a non-str raises
  let uid ← match (pySplitColon us)[1]?.bind pyStrToInt with
    | some n => Except.ok n
    | Option.none => Except.error ()   -- int() raises
  let (st, ugid) ← store_get_or_create st "entity" uid "unit" unit_type_gid
  let r ← store_access_field st ugid unit_name_field .GET (.scalar .none)
  let uname ← match r.2.2 with
    | .scalar (.str s) => Except.ok s
    | _ => Except.error ()   -- a missing unit name breaks Entity._ref
  let mt_gid ← match List.lookup meta_type_field jm with
    | some (.scalar (.str s)) => Except.ok s
    | _ => Except.error ()
  let tname ← match List.lookup mt_gid st.type_names with
    | some t => Except.ok t
    | Option.none => Except.error ()   -- KeyError in _enum_map
  let eid ← match List.lookup entity_id_field jm with
    | some (.scalar (.int n)) => Except.ok n
    | some (.scalar (.str s)) =>
        match pyStrToInt s with
        | some n => Except.ok n
        | Option.none => Except.error ()
    | _ => Except.error ()
  let (st, gid) ← store_get_or_create st uname eid tname mt_gid
  let st ← jm.foldlM (fun st p =>
    if p.1 = unit_field ∨ p.1 = meta_type_field ∨ p.1 = entity_id_field then
      Except.ok st
    else do
      let cfg ← match List.lookup p.1 schema with
        | some c => Except.ok c
        | Option.none => Except.error ()
      let v := if cfg.valuetype = .SET then
          match p.2 with
          | .list xs => PyVal.set (pySetOf xs)
          | w => w
        else p.2
      let r ← store_access_field st gid cfg .SET v
      Except.ok r.1) st
  .ok (st, gid)

/-- The auto-id entity creation of `Store.access` for a
`(unit_name, None, FieldProps)` path: increment the unit's counter, use
the result as the entity id, and get-or-create the entity under that
global id (`tinfo` is the FieldProps member's name and the meta-type
entity's global id). -/
def create_entity_auto (st : Store) (unit_name : String)
    (tinfo : String × String) : Except Unit (Store × Int) := do
  let r ← increment_unit_counter st unit_name
  match r.2 with
  | .scalar (.int n) => do
      let r2 ← store_get_or_create r.1 unit_name n tinfo.1 tinfo.2
      .ok (r2.1, n)
  | _ => .error ()

/-- N successive auto-id creations under one unit, each with its own
(possibly different) meta-type. -/
def create_entities_auto (st : Store) (unit_name : String) :
    List (String × String) → Except Unit (Store × List Int)
  | [] => .ok (st, [])
  | t :: ts => do
      let r ← create_entity_auto st unit_name t
      let r2 ← create_entities_auto r.1 unit_name ts
      .ok (r2.1, r.2 :: r2.2)

/-! ## Helper lemmas -/

theorem emapGet_emapSet_self (em : EMap) (k : String) (v : PyVal) :
    emapGet (emapSet em k v) k = some v := by
  induction em with
  | nil => simp [emapSet, emapGet]
  | cons p rest ih =>
      by_cases h : p.1 = k
      · simp [emapSet, emapGet, h]
      · simp [emapSet, emapGet, h, ih]

theorem emapGet_emapSet_ne (em : EMap) (k k' : String) (v : PyVal)
    (h : k' ≠ k) : emapGet (emapSet em k' v) k = emapGet em k := by
  induction em with
  | nil => simp [emapSet, emapGet, h]
  | cons p rest ih =>
      by_cases hp : p.1 = k'
      · simp [emapSet, emapGet, hp, h]
      · simp [emapSet, emapGet, hp, ih]

theorem storeMapGet_set_self (l : List (String × EState)) (gid : String) (e : EState) :
    storeMapGet (storeMapSet l gid e) gid = some e := by
  induction l with
  | nil => simp [storeMapSet, storeMapGet]
  | cons p rest ih =>
      by_cases h : p.1 = gid
      · simp [storeMapSet, storeMapGet, h]
      · simp [storeMapSet, storeMapGet, h, ih]

theorem storeMapSet_self (l : List (String × EState)) (gid : String) (e : EState)
    (h : storeMapGet l gid = some e) : storeMapSet l gid e = l := by
  induction l with
  | nil => simp [storeMapGet] at h
  | cons p rest ih =>
      obtain ⟨k, v⟩ := p
      by_cases hp : k = gid
      · simp [storeMapGet, hp] at h
        simp [storeMapSet, hp, h]
      · simp [storeMapGet, hp] at h
        simp [storeMapSet, hp, ih h]

theorem storeMapGet_append_of_some (l l' : List (String × EState)) (gid : String)
    (e : EState) (h : storeMapGet l gid = some e) :
    storeMapGet (l ++ l') gid = some e := by
  induction l with
  | nil => simp [storeMapGet] at h
  | cons p rest ih =>
      by_cases hp : p.1 = gid
      · simp [storeMapGet, hp] at h ⊢; exact h
      · simp [storeMapGet, hp] at h ⊢; exact ih h

theorem storeSet_self (st : Store) (gid : String) (e : EState)
    (h : storeGet st gid = some e) : storeSet st gid e = st := by
  unfold storeSet
  rw [storeMapSet_self st.entity_map gid e h]

theorem pyEq_refl (v : PyVal) : pyEq v v = true := by
  cases v with
  | scalar a => simp [pyEq, pyEqScalar]
  | list xs => simp [pyEq]
  | set xs =>
      simp only [pyEq, Bool.and_eq_true, List.all_eq_true]
      constructor
      · intro a ha
        exact List.any_eq_true.mpr ⟨a, ha, by simp [pyEqScalar]⟩
      · intro a ha
        exact List.any_eq_true.mpr ⟨a, ha, by simp [pyEqScalar]⟩

/-- The `all_included` scan over a stored set computes exactly `List.all`
membership. -/
theorem all_included_loop_eq (xs : List PyScalar) (vs : List PyScalar) :
    all_included_loop (.set xs) vs = some (vs.all (fun v => pyMemScalar v xs)) := by
  induction vs with
  | nil => simp [all_included_loop]
  | cons v rest ih =>
      simp only [all_included_loop, pyMem, Option.bind_eq_bind, Option.some_bind,
        List.all_cons]
      cases h : pyMemScalar v xs with
      | false => simp
      | true => simp [ih]

theorem except_bind_ok {α β : Type} (a : α) (f : α → Except Unit β) :
    (Except.ok a >>= f : Except Unit β) = f a := rfl

theorem except_bind_error {α β : Type} (f : α → Except Unit β) :
    (Except.error () >>= f : Except Unit β) = Except.error () := rfl

theorem convert_value_to_db_int_id (f : Field) (v : PyScalar)
    (h : f.datatype = .INT) : convert_value_to_db f v = v := by
  cases v <;> simp [convert_value_to_db, h]

theorem insert_aux_rows_mem_gid (gid : String) (i : Int) (l : List PyScalar) :
    ∀ r ∈ insert_aux_rows gid i l, r.global_id = gid := by
  induction l generalizing i with
  | nil => simp [insert_aux_rows]
  | cons v rest ih =>
      intro r hr
      simp only [insert_aux_rows, List.mem_cons] at hr
      rcases hr with rfl | hr
      · rfl
      · exact ih (i + 1) r hr

theorem insert_aux_rows_filter_eq (gid : String) (i : Int) (l : List PyScalar) :
    (insert_aux_rows gid i l).filter (fun r => decide (r.global_id = gid)) =
      insert_aux_rows gid i l := by
  induction l generalizing i with
  | nil => simp [insert_aux_rows]
  | cons v rest ih => simp [insert_aux_rows, List.filter_cons, ih]

theorem insert_aux_rows_filter_ne (gid : String) (i : Int) (l : List PyScalar) :
    (insert_aux_rows gid i l).filter (fun r => decide (r.global_id ≠ gid)) = [] := by
  refine List.filter_eq_nil_iff.mpr ?_
  intro a ha
  simpa using insert_aux_rows_mem_gid gid i l a ha

theorem delete_aux_rows_filter_eq (tbl : List AuxRow) (gid : String) :
    (delete_aux_rows tbl gid).filter (fun r => decide (r.global_id = gid)) = [] := by
  induction tbl with
  | nil => simp [delete_aux_rows]
  | cons r rest ih =>
      by_cases h : r.global_id = gid <;>
        simp_all [delete_aux_rows, List.filter_cons, h]

theorem delete_aux_rows_filter_ne (tbl : List AuxRow) (gid : String) :
    (delete_aux_rows tbl gid).filter (fun r => decide (r.global_id ≠ gid)) =
      delete_aux_rows tbl gid := by
  induction tbl with
  | nil => simp [delete_aux_rows]
  | cons r rest ih =>
      by_cases h : r.global_id = gid <;>
        simp_all [delete_aux_rows, List.filter_cons, h]

/-- Underscore-prefixed types contribute nothing to the generated table
schema: the emitted tables equal those of the underscore-free types. -/
theorem generate_schema_tables_filter (unit_name : String) (metas : List MetaDesc) :
    generate_schema_tables unit_name metas =
      generate_schema_tables unit_name
        (metas.filter (fun x => !starts_with_underscore x.type_name)) := by
  unfold generate_schema_tables
  generalize ([] : List String) = acc
  induction metas generalizing acc with
  | nil => simp
  | cons x rest ih =>
      by_cases hx : starts_with_underscore x.type_name
      · simp [List.filter_cons, hx, List.foldl_cons, ih]
      · simp [List.filter_cons, hx, List.foldl_cons, ih]

/-! ## Claim theorems -/

/-- C1: `SqlPersist.persist_entities` dispatches on
`e.committed == Committed.CREATED / UPDATED / DELETED`, so an entity in
those states is inserted / updated / skipped — but an entity fresh from
`Entity.__init__` carries `committed = False`, a Python bool that equals
no `Committed` member, so the persistence pass issues no statement at all
for it, contradicting the claim that an uncommitted (new) entity is
inserted via insert_entity. -/
theorem persist_pass_skips_fresh_entity :
    persist_entities [entity_init "main" 1 "thing"] = [] ∧
    persist_entities [⟨"main:1:thing", .enum .CREATED⟩,
                      ⟨"main:2:thing", .enum .UPDATED⟩,
                      ⟨"main:3:thing", .enum .DELETED⟩] =
      [.insert "main:1:thing", .update "main:2:thing"] := by
  exact ⟨rfl, rfl⟩

/-- C4: the `Store.access` call `load_entities` makes per loaded row
passes the unit *entity* and the meta-type *entity* as path elements,
but the locator of `Store.access` only accepts a resolvable global-id
string or a `(unit-name string, id, FieldProps)` triple — with the shapes
the load path supplies, no entity reference resolves (the operation falls
into the whole-store scan and GETs `None`, so the subsequent
`entity.access(...)`/`entity.set_committed()` calls fail), whereas the
documented calling convention does resolve. -/
theorem load_entities_access_locator_mismatch
    (st : Store) (ug mg : String) (i : Int) :
    access_resolve_locator st [.pyentity ug, .pyint i, .pyentity mg] =
      .ok (st, Option.none) ∧
    access_resolve_locator (Store.mk [] [] []) [.pystr "app", .pyint 7, .pyfieldprops "thing"] =
      .ok (Store.mk [] [] [], some "app:7:thing") := by
  exact ⟨rfl, rfl⟩

/-- C5: the auxiliary-table effect of `SqlPersist.update_entity` is
replace-all: every existing row of the entity is deleted, then the current
full collection is re-inserted numbered from zero; rows of other entities
are untouched; after updating a LIST field to a two-element collection
the table holds exactly 2 rows for that entity; and the multivalue array
handed over by `update_entity` for a LIST field is exactly the stored
list (`map_value_to_db` converts elementwise, the identity on INT). -/
theorem update_entity_multivalue_replace_all
    (tbl : List AuxRow) (gid : String) (v : PyScalar) (vs : List PyScalar) :
    (update_entity_multivalues tbl gid (some (v :: vs)) true).filter
        (fun r => decide (r.global_id = gid)) = insert_aux_rows gid 0 (v :: vs) ∧
    (update_entity_multivalues tbl gid (some (v :: vs)) true).filter
        (fun r => decide (r.global_id ≠ gid)) = delete_aux_rows tbl gid ∧
    ((update_entity_multivalues tbl gid (some [.int 1, .int 2]) true).filter
        (fun r => decide (r.global_id = gid))).length = 2 ∧
    (∀ (st : Store) (em : EMap) (f : Field) (vs' : List PyScalar),
      f.datatype = .INT → f.valuetype = .LIST →
      emapGet em f.global_name = some (.list vs') →
      update_entity_aux_table st em f gid tbl =
        .ok (update_entity_multivalues tbl gid (some vs') true)) := by
  refine ⟨?_, ?_, ?_, ?_⟩
  · show (delete_aux_rows tbl gid ++ insert_aux_rows gid 0 (v :: vs)).filter _ = _
    rw [List.filter_append, delete_aux_rows_filter_eq, insert_aux_rows_filter_eq]
    simp
  · show (delete_aux_rows tbl gid ++ insert_aux_rows gid 0 (v :: vs)).filter _ = _
    rw [List.filter_append, delete_aux_rows_filter_ne, insert_aux_rows_filter_ne]
    simp
  · show ((delete_aux_rows tbl gid ++
      insert_aux_rows gid 0 [.int 1, .int 2]).filter _).length = 2
    rw [List.filter_append, delete_aux_rows_filter_eq, insert_aux_rows_filter_eq]
    simp [insert_aux_rows]
  · intro st em f vs' hdt hvt hst
    have hconv : vs'.map (convert_value_to_db f) = vs' := by
      calc vs'.map (convert_value_to_db f) = vs'.map id := by
            exact List.map_congr_left (fun x _ => convert_value_to_db_int_id f x hdt)
        _ = vs' := List.map_id vs'
    simp [update_entity_aux_table, map_value_to_db, access_data_get_value, hst,
      hvt, hdt, hconv, except_bind_ok]

/-- C5 witness. -/
theorem update_entity_multivalue_replace_all_witness :
    ((update_entity_multivalues
        [⟨"g", 0, .int 1⟩, ⟨"g", 1, .int 2⟩, ⟨"g", 2, .int 3⟩, ⟨"h", 0, .int 9⟩]
        "g" (some [.int 1, .int 2]) true).filter
        (fun r => decide (r.global_id = "g"))).length = 2 ∧
    update_entity_aux_table (Store.mk [] [] [])
        [("m:t:seq", .list [.int 1, .int 2])] ⟨"seq", "m:t:seq", .INT, .LIST⟩ "g"
        [⟨"g", 0, .int 1⟩, ⟨"g", 1, .int 2⟩, ⟨"g", 2, .int 3⟩] =
      .ok (update_entity_multivalues
        [⟨"g", 0, .int 1⟩, ⟨"g", 1, .int 2⟩, ⟨"g", 2, .int 3⟩]
        "g" (some [.int 1, .int 2]) true) := by
  refine ⟨?_, ?_⟩
  · exact (update_entity_multivalue_replace_all
      [⟨"g", 0, .int 1⟩, ⟨"g", 1, .int 2⟩, ⟨"g", 2, .int 3⟩, ⟨"h", 0, .int 9⟩]
      "g" (.int 1) [.int 2]).2.2.1
  · exact (update_entity_multivalue_replace_all
      [⟨"g", 0, .int 1⟩, ⟨"g", 1, .int 2⟩, ⟨"g", 2, .int 3⟩]
      "g" (.int 1) [.int 2]).2.2.2
      (Store.mk [] [] []) [("m:t:seq", .list [.int 1, .int 2])]
      ⟨"seq", "m:t:seq", .INT, .LIST⟩ [.int 1, .int 2] rfl rfl rfl

/-- C6: CHANGE on a SINGLE field with current stored value v and delta d
stores v + d, returns the new value, and always runs the dirty transition
(`_set_uncommitted`), with no early exit — `d = 0` included (the branch
never compares old and new).  The CHANGE branch consults only the
cardinality, so this covers every numeric SINGLE field. -/
theorem change_always_dirties_and_adds_delta
    (est : EState) (f : Field) (v d : Int)
    (hvt : f.valuetype = .SINGLE)
    (hst : emapGet est.e_map f.global_name = some (.scalar (.int v))) :
    access_data_set_value est f (.scalar (.int d)) .CHANGE =
      some (true, .scalar (.int (v + d)),
        set_uncommitted (estWrite est f.global_name (.scalar (.int (v + d))))) := by
  simp [access_data_set_value, access_set_generic, hvt, hst, pyAdd]

/-- C6 witness: delta 0 on stored value 5. -/
theorem change_always_dirties_and_adds_delta_witness :
    access_data_set_value ⟨[("m:t:cnt", .scalar (.int 5))], .pybool false⟩
        ⟨"cnt", "m:t:cnt", .INT, .SINGLE⟩ (.scalar (.int 0)) .CHANGE =
      some (true, .scalar (.int 5),
        set_uncommitted (estWrite ⟨[("m:t:cnt", .scalar (.int 5))], .pybool false⟩
          "m:t:cnt" (.scalar (.int 5)))) := by
  simpa using change_always_dirties_and_adds_delta
    ⟨[("m:t:cnt", .scalar (.int 5))], .pybool false⟩
    ⟨"cnt", "m:t:cnt", .INT, .SINGLE⟩ 5 0 rfl rfl

/-- C10: `generate_schema` registers every meta-type into
`__persisted_types`, but a type whose name starts with an underscore
contributes no table (primary or auxiliary) to the emitted schema —
the schema equals that of the underscore-free types alone — and
`load_type` never calls `load_entities` for it. -/
theorem underscore_types_registered_but_never_mapped
    (unit_name : String) (metas : List MetaDesc) (m : MetaDesc)
    (loader : MetaDesc → List String)
    (hm : m ∈ metas) (hu : starts_with_underscore m.type_name = true) :
    m.type_name ∈ generate_schema_persisted metas ∧
    generate_schema_tables unit_name metas =
      generate_schema_tables unit_name
        (metas.filter (fun x => !starts_with_underscore x.type_name)) ∧
    load_type m loader = [] := by
  exact ⟨List.mem_map.mpr ⟨m, hm, rfl⟩,
    generate_schema_tables_filter unit_name metas, by simp [load_type, hu]⟩

/-- C2 counterexample inputs: an entity-reference SINGLE field whose slot
already holds the global id of `app:2:person`. -/
def c2_field : Field := ⟨"owner", "app:thing:owner", .ENTITY, .SINGLE⟩

def c2_est : EState :=
  ⟨[("app:thing:owner", .scalar (.str "app:2:person"))], .pybool false⟩

def c2_store : Store := ⟨[("app:1:thing", c2_est)], [("app", "entity:1:unit")], []⟩

/-- C2 counterexample: SET with the very entity already stored in an
entity-reference SINGLE field is *not* silent — the slot holds the
global-id string, the argument is the live `Entity` handle, and Python's
`!=` between them is always True, so the store re-runs the uncommitted
transition, reports `changed = True`, and (the unit being non-reserved)
the change notification fires again. -/
theorem set_same_entity_single_notifies_again :
    store_access_field c2_store "app:1:thing" c2_field .SET
        (.scalar (.ent "app:2:person")) =
      .ok (storeSet c2_store "app:1:thing"
            (set_uncommitted (estWrite c2_est "app:thing:owner"
              (.scalar (.str "app:2:person")))),
           true, .scalar (.ent "app:2:person")) ∧
    create_message_gate "messages" "app" true = true := by
  exact ⟨rfl, rfl⟩

/-- C2 (amended): SET with a value equal to the stored one leaves the
entity state untouched, reports no change, and hence emits no
notification — for every field shape *except* entity-reference SINGLE
fields: there the stored global-id string never compares equal to the
entity handle, so a same-entity SET re-marks the entity uncommitted,
reports a change and re-notifies. -/
theorem set_equal_value_silent_except_entity_single
    (st : Store) (gid : String) (est : EState) (f : Field)
    (hent : storeGet st gid = some est) :
    (∀ v, emapGet est.e_map f.global_name = some v →
      (f.valuetype = .LIST → ∃ xs, v = .list xs) →
      (f.valuetype = .SET → ∃ xs, v = .set xs) →
      (¬ (f.datatype = .ENTITY ∧ ∃ g, v = .scalar (.ent g))) →
      store_access_field st gid f .SET v = .ok (st, false, v) ∧
      ∀ mu un, create_message_gate mu un false = false) ∧
    (∀ g, f.datatype = .ENTITY → f.valuetype = .SINGLE →
      emapGet est.e_map f.global_name = some (.scalar (.str g)) →
      store_access_field st gid f .SET (.scalar (.ent g)) =
        .ok (storeSet st gid
              (set_uncommitted (estWrite est f.global_name (.scalar (.str g)))),
             true, .scalar (.ent g))) := by
  constructor
  · intro v hv hlist hset hne
    have hch : access_data_set_value est f v .SET = some (false, v, est) := by
      cases v with
      | scalar sv =>
          have hvtL : f.valuetype ≠ .LIST := by
            intro h; rcases hlist h with ⟨xs, hxs⟩; cases hxs
          have hvtS : f.valuetype ≠ .SET := by
            intro h; rcases hset h with ⟨xs, hxs⟩; cases hxs
          cases sv with
          | ent g =>
              have hdt : f.datatype ≠ .ENTITY := fun h => hne ⟨h, g, rfl⟩
              simp [access_data_set_value, access_set_generic, hdt, hvtL, hvtS,
                hv, pyEq_refl]
          | int n =>
              simp [access_data_set_value, access_set_generic, hvtL, hvtS, hv,
                pyEq_refl]
          | str s =>
              simp [access_data_set_value, access_set_generic, hvtL, hvtS, hv,
                pyEq_refl]
          | bool b =>
              simp [access_data_set_value, access_set_generic, hvtL, hvtS, hv,
                pyEq_refl]
          | none =>
              simp [access_data_set_value, access_set_generic, hvtL, hvtS, hv,
                pyEq_refl]
          | method g =>
              simp [access_data_set_value, access_set_generic, hvtL, hvtS, hv,
                pyEq_refl]
      | list xs =>
          have hvtS : f.valuetype ≠ .SET := by
            intro h; rcases hset h with ⟨ys, hys⟩; cases hys
          simp [access_data_set_value, access_set_generic, hvtS, hv, pyEq_refl]
      | set xs =>
          have hvtL : f.valuetype ≠ .LIST := by
            intro h; rcases hlist h with ⟨ys, hys⟩; cases hys
          simp [access_data_set_value, access_set_generic, hvtL, hv, pyEq_refl]
    refine ⟨?_, by intro mu un; simp [create_message_gate]⟩
    simp [store_access_field, hent, hch, storeSet_self st gid est hent]
  · intro g hdt hvt hv
    have hch : access_data_set_value est f (.scalar (.ent g)) .SET =
        some (true, .scalar (.ent g),
          set_uncommitted (estWrite est f.global_name (.scalar (.str g)))) := by
      have hne : pyEq (.scalar (.str g)) (.scalar (.ent g)) = false := by
        simp [pyEq, pyEqScalar]
      simp [access_data_set_value, access_set_entity_value, hdt, hvt, hv, hne]
    simp [store_access_field, hent, hch]

/-- C2 witness. -/
theorem set_equal_value_silent_except_entity_single_witness :
    store_access_field c2_store "app:1:thing"
        ⟨"title", "app:thing:owner", .STRING, .SINGLE⟩ .SET
        (.scalar (.str "app:2:person")) =
      .ok (c2_store, false, .scalar (.str "app:2:person")) ∧
    store_access_field c2_store "app:1:thing" c2_field .SET
        (.scalar (.ent "app:2:person")) =
      .ok (storeSet c2_store "app:1:thing"
            (set_uncommitted (estWrite c2_est "app:thing:owner"
              (.scalar (.str "app:2:person")))),
           true, .scalar (.ent "app:2:person")) := by
  constructor
  · exact ((set_equal_value_silent_except_entity_single c2_store "app:1:thing"
      c2_est ⟨"title", "app:thing:owner", .STRING, .SINGLE⟩ rfl).1
      (.scalar (.str "app:2:person")) rfl
      (by intro h; cases h) (by intro h; cases h)
      (by rintro ⟨h, -⟩; cases h)).1
  · exact (set_equal_value_silent_except_entity_single c2_store "app:1:thing"
      c2_est c2_field rfl).2 "app:2:person" rfl rfl rfl

/-- C3 counterexample inputs: an ENTITY SET field and a plain SET field,
both starting absent. -/
def c3_field : Field := ⟨"refs", "app:thing:refs", .ENTITY, .SET⟩

def c3_field_plain : Field := ⟨"tags", "app:thing:tags", .STRING, .SET⟩

/-- C3 counterexample: ADD-ing the same entity twice onto an ENTITY SET
field leaves exactly one stored occurrence, but the *second* ADD still
reports a change (the source's membership test `value.global_id in ...`
compares the bound method, which is never in the set of id strings) — and
a bulk ADD of an empty list onto an absent SET field also reports a
change, though no element was missing. -/
theorem add_same_entity_twice_still_dirties :
    ((access_data_set_value ⟨[], .pybool false⟩ c3_field
        (.scalar (.ent "app:1:p")) .ADD).bind
      (fun r => access_data_set_value r.2.2 c3_field
        (.scalar (.ent "app:1:p")) .ADD)).map
      (fun r => (r.1, emapGet r.2.2.e_map "app:thing:refs")) =
      some (true, some (.set [.str "app:1:p"])) ∧
    (access_data_set_value ⟨[], .pybool false⟩ c3_field_plain
        (.list []) .ADD).map (fun r => r.1) = some true := by
  exact ⟨by decide, by decide⟩

/-- C3 (amended): on a SET-cardinality field, ADD-ing the same value twice
stores exactly one occurrence; for a plain value the second ADD is silent,
but for an entity-typed value it still dirties (the membership check
compares the bound method `value.global_id`); a bulk ADD of a list onto a
field already present dirties iff some element was absent, while on an
absent field it always dirties, an empty list included. -/
theorem add_set_dedup_and_dirty_rules
    (est : EState) (f : Field)
    (hvt : f.valuetype = .SET)
    (hgfn : f.global_name ≠ committed_field) :
    (∀ v : PyScalar, (¬ (f.datatype = .ENTITY ∧ ∃ g, v = .ent g)) →
      emapGet est.e_map f.global_name = Option.none →
      ∃ est1,
        access_data_set_value est f (.scalar v) .ADD = some (true, .scalar v, est1) ∧
        emapGet est1.e_map f.global_name = some (.set [v]) ∧
        access_data_set_value est1 f (.scalar v) .ADD = some (false, .scalar v, est1)) ∧
    (∀ g, f.datatype = .ENTITY →
      emapGet est.e_map f.global_name = Option.none →
      ∃ est1 est2,
        access_data_set_value est f (.scalar (.ent g)) .ADD =
          some (true, .scalar (.ent g), est1) ∧
        emapGet est1.e_map f.global_name = some (.set [.str g]) ∧
        access_data_set_value est1 f (.scalar (.ent g)) .ADD =
          some (true, .scalar (.ent g), est2) ∧
        emapGet est2.e_map f.global_name = some (.set [.str g])) ∧
    (∀ (xs vs : List PyScalar), emapGet est.e_map f.global_name = some (.set xs) →
      (vs.all (fun v => pyMemScalar v xs) = true →
        access_data_set_value est f (.list vs) .ADD = some (false, .list vs, est)) ∧
      (vs.all (fun v => pyMemScalar v xs) = false →
        access_data_set_value est f (.list vs) .ADD =
          some (true, .list vs,
            set_uncommitted (estWrite est f.global_name (.set (pySetUpdate xs vs)))))) ∧
    (emapGet est.e_map f.global_name = Option.none →
      access_data_set_value est f (.list []) .ADD =
        some (true, .list [],
          set_uncommitted (estWrite est f.global_name (.set [])))) := by
  have hget1 : ∀ (st0 : EState) (w : PyVal),
      emapGet (set_uncommitted (estWrite st0 f.global_name w)).e_map
        f.global_name = some w := by
    intro st0 w
    show emapGet (emapSet (emapSet st0.e_map f.global_name w) committed_field _)
      f.global_name = _
    rw [emapGet_emapSet_ne _ _ _ _ (Ne.symm hgfn), emapGet_emapSet_self]
  refine ⟨?_, ?_, ?_, ?_⟩
  · intro v hne habs
    have hfirst : access_data_set_value est f (.scalar v) .ADD =
        some (true, .scalar v,
          set_uncommitted (estWrite est f.global_name (.set [v]))) := by
      have hadd : pySetAdd [] v = [v] := by simp [pySetAdd, pyMemScalar]
      cases v with
      | ent g =>
          have hdt : f.datatype ≠ .ENTITY := fun h => hne ⟨h, g, rfl⟩
          simp [access_data_set_value, access_set_generic, hdt, hvt, habs, hadd]
      | int n => simp [access_data_set_value, access_set_generic, hvt, habs, hadd]
      | str s => simp [access_data_set_value, access_set_generic, hvt, habs, hadd]
      | bool b => simp [access_data_set_value, access_set_generic, hvt, habs, hadd]
      | none => simp [access_data_set_value, access_set_generic, hvt, habs, hadd]
      | method g => simp [access_data_set_value, access_set_generic, hvt, habs, hadd]
    refine ⟨_, hfirst, ?_, ?_⟩
    · exact hget1 est (.set [v])
    · have hst1 : emapGet (set_uncommitted (estWrite est f.global_name
          (.set [v]))).e_map f.global_name = some (.set [v]) := hget1 est (.set [v])
      have hmem : pyMem v (.set [v]) = some true := by
        simp [pyMem, pyMemScalar, pyEqScalar]
      cases v with
      | ent g =>
          have hdt : f.datatype ≠ .ENTITY := fun h => hne ⟨h, g, rfl⟩
          simp [access_data_set_value, access_set_generic, hdt, hvt, hst1, hmem]
      | int n => simp [access_data_set_value, access_set_generic, hvt, hst1, hmem]
      | str s => simp [access_data_set_value, access_set_generic, hvt, hst1, hmem]
      | bool b => simp [access_data_set_value, access_set_generic, hvt, hst1, hmem]
      | none => simp [access_data_set_value, access_set_generic, hvt, hst1, hmem]
      | method g => simp [access_data_set_value, access_set_generic, hvt, hst1, hmem]
  · intro g hdt habs
    have hadd : pySetAdd [] (.str g) = [PyScalar.str g] := by
      simp [pySetAdd, pyMemScalar]
    have hfirst : access_data_set_value est f (.scalar (.ent g)) .ADD =
        some (true, .scalar (.ent g),
          set_uncommitted (estWrite est f.global_name (.set [.str g]))) := by
      simp [access_data_set_value, access_set_entity_value, hdt, hvt, habs, hadd]
    have hst1 : emapGet (set_uncommitted (estWrite est f.global_name
        (.set [.str g]))).e_map f.global_name = some (.set [.str g]) :=
      hget1 est (.set [.str g])
    have hmem : pyMem (.method g) (.set [.str g]) = some false := by
      simp [pyMem, pyMemScalar, pyEqScalar]
    have hadd2 : pySetAdd [PyScalar.str g] (.str g) = [PyScalar.str g] := by
      simp [pySetAdd, pyMemScalar, pyEqScalar]
    have hsecond : access_data_set_value
        (set_uncommitted (estWrite est f.global_name (.set [.str g]))) f
        (.scalar (.ent g)) .ADD =
        some (true, .scalar (.ent g),
          set_uncommitted (estWrite
            (set_uncommitted (estWrite est f.global_name (.set [.str g])))
            f.global_name (.set [.str g]))) := by
      simp [access_data_set_value, access_set_entity_value, hdt, hvt, hst1,
        hmem, hadd2]
    exact ⟨_, _, hfirst, hst1, hsecond,
      hget1 (set_uncommitted (estWrite est f.global_name (.set [.str g])))
        (.set [.str g])⟩
  · intro xs vs hst
    constructor
    · intro hall
      simp [access_data_set_value, access_set_generic, hvt, access_set_bulk,
        hst, all_included_loop_eq, hall]
    · intro hall
      simp [access_data_set_value, access_set_generic, hvt, access_set_bulk,
        hst, all_included_loop_eq, hall]
  · intro habs
    simp [access_data_set_value, access_set_generic, hvt, access_set_bulk,
      habs, pySetUpdate]

/-- C3 witness. -/
theorem add_set_dedup_and_dirty_rules_witness :
    (∃ est1,
      access_data_set_value ⟨[], .pybool false⟩ c3_field_plain
          (.scalar (.str "a")) .ADD = some (true, .scalar (.str "a"), est1) ∧
      emapGet est1.e_map "app:thing:tags" = some (.set [.str "a"]) ∧
      access_data_set_value est1 c3_field_plain (.scalar (.str "a")) .ADD =
        some (false, .scalar (.str "a"), est1)) ∧
    (∃ est1 est2,
      access_data_set_value ⟨[], .pybool false⟩ c3_field
          (.scalar (.ent "app:1:p")) .ADD =
        some (true, .scalar (.ent "app:1:p"), est1) ∧
      emapGet est1.e_map "app:thing:refs" = some (.set [.str "app:1:p"]) ∧
      access_data_set_value est1 c3_field (.scalar (.ent "app:1:p")) .ADD =
        some (true, .scalar (.ent "app:1:p"), est2) ∧
      emapGet est2.e_map "app:thing:refs" = some (.set [.str "app:1:p"])) := by
  constructor
  · exact (add_set_dedup_and_dirty_rules ⟨[], .pybool false⟩ c3_field_plain
      rfl (by decide)).1 (.str "a") (by rintro ⟨h, -⟩; cases h) rfl
  · exact (add_set_dedup_and_dirty_rules ⟨[], .pybool false⟩ c3_field
      rfl (by decide)).2.1 "app:1:p" rfl rfl

/-- C7 counterexample inputs: an entity whose attribute dict lacks the
field. -/
def c7_field : Field := ⟨"title", "app:thing:title", .STRING, .SINGLE⟩

def c7_store : Store := ⟨[("app:1:thing", ⟨[], .pybool false⟩)], [], []⟩

/-- C7 counterexample: GET on an absent field returns Python `None`, not
the caller-supplied default — `Store.access` passes a hard-coded `None`
into `_access_data_get_value` and never reads its `value` argument. -/
theorem get_ignores_caller_default :
    store_access_field c7_store "app:1:thing" c7_field .GET (.scalar (.int 0)) =
      .ok (c7_store, false, .scalar .none) ∧
    (PyVal.scalar .none ≠ PyVal.scalar (.int 0)) := by
  exact ⟨rfl, by decide⟩

/-- C7 (amended): GET returns the stored value, dereferences a stored
string that resolves to a known entity with non-zero id into the live
handle, never mutates the store or the dirty state — but an absent field
yields Python `None` whatever default the caller supplied (the `value`
argument of `Store.access` is ignored for GET). -/
theorem get_returns_stored_never_mutates
    (st : Store) (gid : String) (est : EState) (f : Field)
    (hent : storeGet st gid = some est) :
    (emapGet est.e_map f.global_name = Option.none →
      ∀ dflt, store_access_field st gid f .GET dflt = .ok (st, false, .scalar .none)) ∧
    (∀ v, emapGet est.e_map f.global_name = some v →
      (∀ s, v ≠ .scalar (.str s)) →
      ∀ dflt, store_access_field st gid f .GET dflt = .ok (st, false, v)) ∧
    (∀ s eid, emapGet est.e_map f.global_name = some (.scalar (.str s)) →
      resolve_global_id st s = .ok (some eid) → eid ≠ 0 →
      ∀ dflt, store_access_field st gid f .GET dflt =
        .ok (st, false, .scalar (.ent s))) := by
  refine ⟨?_, ?_, ?_⟩
  · intro habs dflt
    simp [store_access_field, hent, access_data_get_value, habs, except_bind_ok]
  · intro v hv hnostr dflt
    have hval : access_data_get_value st est.e_map f.global_name (.scalar .none) =
        .ok v := by
      cases v with
      | scalar sv =>
          cases sv with
          | str s => exact absurd rfl (hnostr s)
          | int n => simp [access_data_get_value, hv]
          | bool b => simp [access_data_get_value, hv]
          | none => simp [access_data_get_value, hv]
          | ent g => simp [access_data_get_value, hv]
          | method g => simp [access_data_get_value, hv]
      | list xs => simp [access_data_get_value, hv]
      | set xs => simp [access_data_get_value, hv]
    simp [store_access_field, hent, hval, except_bind_ok]
  · intro s eid hv hres heid dflt
    have hval : access_data_get_value st est.e_map f.global_name (.scalar .none) =
        .ok (.scalar (.ent s)) := by
      simp [access_data_get_value, hv, hres, except_bind_ok, heid]
    simp [store_access_field, hent, hval, except_bind_ok]

/-- A store with a resolvable entity reference, for the C7 witness. -/
def c7_deref_store : Store :=
  ⟨[("app:1:thing", ⟨[("app:thing:owner", .scalar (.str "app:2:person"))], .pybool false⟩),
    ("app:2:person", ⟨[(meta_type_field, .scalar (.str "app:9:type_meta"))], .pybool false⟩)],
   [("app", "entity:1:unit")], [("app:9:type_meta", "person")]⟩

/-- C7 witness: absent field with default 0 returns None; a stored
reference dereferences into the live handle. -/
theorem get_returns_stored_never_mutates_witness :
    store_access_field c7_store "app:1:thing" c7_field .GET (.scalar (.int 0)) =
      .ok (c7_store, false, .scalar .none) ∧
    store_access_field c7_deref_store "app:1:thing"
        ⟨"owner", "app:thing:owner", .ENTITY, .SINGLE⟩ .GET (.scalar .none) =
      .ok (c7_deref_store, false, .scalar (.ent "app:2:person")) := by
  constructor
  · exact (get_returns_stored_never_mutates c7_store "app:1:thing"
      ⟨[], .pybool false⟩ c7_field rfl).1 rfl (.scalar (.int 0))
  · exact (get_returns_stored_never_mutates c7_deref_store "app:1:thing"
      ⟨[("app:thing:owner", .scalar (.str "app:2:person"))], .pybool false⟩
      ⟨"owner", "app:thing:owner", .ENTITY, .SINGLE⟩ rfl).2.2
      "app:2:person" 2 rfl rfl (by decide) (.scalar .none)

/-- `increment_unit_counter` on a unit whose counter holds `c`: the
CHANGE branch stores `c + 1`, marks the unit entity uncommitted, and
returns the new value. -/
theorem increment_unit_counter_spec
    (st : Store) (unit_name ugid : String) (uest : EState) (c : Int)
    (hu : List.lookup unit_name st.units = some ugid)
    (he : storeGet st ugid = some uest)
    (hc : emapGet uest.e_map id_cnt_gfn = some (.scalar (.int c))) :
    increment_unit_counter st unit_name =
      .ok (storeSet st ugid
            (set_uncommitted (estWrite uest id_cnt_gfn (.scalar (.int (c + 1))))),
           .scalar (.int (c + 1))) := by
  have hch : access_data_set_value uest id_cnt_field (.scalar (.int 1)) .CHANGE =
      some (true, .scalar (.int (c + 1)),
        set_uncommitted (estWrite uest id_cnt_gfn (.scalar (.int (c + 1))))) := by
    simp [access_data_set_value, access_set_generic, id_cnt_field, hc, pyAdd]
  simp [increment_unit_counter, hu, store_access_field, he, hch, except_bind_ok]

/-- `store_get_or_create` never disturbs an entity already present under
a different position, nor the unit/type registries. -/
theorem store_get_or_create_preserves
    (st : Store) (uname : String) (eid : Int) (tname mt_gid : String)
    (ugid : String) (e : EState)
    (hu : List.lookup uname st.units = some ugid)
    (he : storeGet st ugid = some e) :
    ∃ st2 gid, store_get_or_create st uname eid tname mt_gid = .ok (st2, gid) ∧
      storeGet st2 ugid = some e ∧ st2.units = st.units ∧
      st2.type_names = st.type_names := by
  cases h : storeGet st (uname ++ ":" ++ toString eid ++ ":" ++ tname) with
  | some e0 =>
      refine ⟨st, uname ++ ":" ++ toString eid ++ ":" ++ tname, ?_, he, rfl, rfl⟩
      simp [store_get_or_create, h]
  | none =>
      refine ⟨{ st with entity_map := st.entity_map ++
          [((uname ++ ":" ++ toString eid ++ ":" ++ tname),
            ⟨[(unit_field, .scalar (.str ugid)),
              (entity_id_field, .scalar (.int eid)),
              (meta_type_field, .scalar (.str mt_gid)),
              (committed_field, .scalar (.bool false))], .pybool false⟩)] },
        uname ++ ":" ++ toString eid ++ ":" ++ tname, ?_, ?_, rfl, rfl⟩
      · simp [store_get_or_create, h, hu]
      · exact storeMapGet_append_of_some st.entity_map _ ugid e he

/-- C8: with the unit's counter at `c`, creating N entities with no
explicit id (each allocation increments the counter and uses the result)
yields ids `c+1, c+2, ..., c+N` — strictly increasing and pairwise
distinct — independently of which meta-type each entity is created under
(the `ts` list), so ids are never reused across meta-types of one unit. -/
theorem unit_counter_ids_strictly_increase
    (st : Store) (unit_name ugid : String) (uest : EState) (c : Int)
    (ts : List (String × String))
    (hu : List.lookup unit_name st.units = some ugid)
    (he : storeGet st ugid = some uest)
    (hc : emapGet uest.e_map id_cnt_gfn = some (.scalar (.int c))) :
    (∃ st', create_entities_auto st unit_name ts =
      .ok (st', (List.range ts.length).map (fun i : Nat => c + 1 + (i : Int)))) ∧
    ((List.range ts.length).map (fun i : Nat => c + 1 + (i : Int))).Pairwise (· < ·) := by
  constructor
  · induction ts generalizing st uest c with
    | nil => exact ⟨st, rfl⟩
    | cons t rest ih =>
        have hinc := increment_unit_counter_spec st unit_name ugid uest c hu he hc
        set est1 := set_uncommitted (estWrite uest id_cnt_gfn (.scalar (.int (c + 1))))
          with hest1
        have he1 : storeGet (storeSet st ugid est1) ugid = some est1 :=
          storeMapGet_set_self st.entity_map ugid est1
        have hu1 : List.lookup unit_name (storeSet st ugid est1).units = some ugid := hu
        obtain ⟨st2, gid, hgc, he2, hun2, -⟩ :=
          store_get_or_create_preserves (storeSet st ugid est1) unit_name (c + 1)
            t.1 t.2 ugid est1 hu1 he1
        have hu2 : List.lookup unit_name st2.units = some ugid := by rw [hun2]; exact hu1
        have hc1 : emapGet est1.e_map id_cnt_gfn = some (.scalar (.int (c + 1))) := by
          rw [hest1]
          show emapGet (emapSet (emapSet uest.e_map id_cnt_gfn _) committed_field _)
            id_cnt_gfn = _
          rw [emapGet_emapSet_ne _ _ _ _ (by decide), emapGet_emapSet_self]
        obtain ⟨st', hrest⟩ := ih st2 est1 (c + 1) hu2 he2 hc1
        refine ⟨st', ?_⟩
        show (do
          let r ← create_entity_auto st unit_name t
          let r2 ← create_entities_auto r.1 unit_name rest
          Except.ok (r2.1, r.2 :: r2.2)) = _
        have hca : create_entity_auto st unit_name t = .ok (st2, c + 1) := by
          simp [create_entity_auto, hinc, except_bind_ok, hgc]
        rw [hca, except_bind_ok, hrest, except_bind_ok]
        have : (List.range (rest.length + 1)).map (fun i : Nat => c + 1 + (i : Int)) =
            (c + 1) :: (List.range rest.length).map (fun i : Nat => c + 1 + 1 + (i : Int)) := by
          rw [List.range_succ_eq_map, List.map_cons, List.map_map]
          refine congrArg₂ _ (by simp) (List.map_congr_left ?_)
          intro i _
          simp [Function.comp]
          ring
        simp only [List.length_cons, this]
  · rw [List.pairwise_map]
    refine List.Pairwise.imp ?_ (List.pairwise_lt_range ts.length)
    intro i j hij
    omega

/-- C8 witness: a unit named `app` with counter 4; two creations (under
different meta-types) yield ids 5 and 6. -/
theorem unit_counter_ids_strictly_increase_witness :
    (∃ st', create_entities_auto
        ⟨[("entity:1:unit", ⟨[(id_cnt_gfn, .scalar (.int 4)),
                              (unit_name_gfn, .scalar (.str "app"))], .pybool false⟩)],
         [("app", "entity:1:unit")], []⟩ "app"
        [("thing", "app:9:type_meta"), ("other", "app:10:type_meta")] =
      .ok (st', (List.range 2).map (fun i : Nat => 4 + 1 + (i : Int)))) ∧
    ((List.range 2).map (fun i : Nat => 4 + 1 + (i : Int))).Pairwise (· < ·) := by
  have h := unit_counter_ids_strictly_increase
    ⟨[("entity:1:unit", ⟨[(id_cnt_gfn, .scalar (.int 4)),
                          (unit_name_gfn, .scalar (.str "app"))], .pybool false⟩)],
     [("app", "entity:1:unit")], []⟩ "app" "entity:1:unit"
    ⟨[(id_cnt_gfn, .scalar (.int 4)), (unit_name_gfn, .scalar (.str "app"))], .pybool false⟩
    4 [("thing", "app:9:type_meta"), ("other", "app:10:type_meta")] rfl rfl rfl
  exact h

/-- C9 scenario: the registered field table for a `thing` type under unit
`app` with one SINGLE string field, one SET field and one LIST field,
plus the four base fields (the slice of `_enum_map` that
`Store._get_field_config` consults). -/
def c9_schema : List (String × Field) :=
  [(unit_field, ⟨"unit", unit_field, .ENTITY, .SINGLE⟩),
   (entity_id_field, ⟨"entity_id", entity_id_field, .INT, .SINGLE⟩),
   (meta_type_field, ⟨"meta_type", meta_type_field, .ENTITY, .SINGLE⟩),
   (committed_field, ⟨"committed", committed_field, .BOOL, .SINGLE⟩),
   ("app:thing:title", ⟨"title", "app:thing:title", .STRING, .SINGLE⟩),
   ("app:thing:tags", ⟨"tags", "app:thing:tags", .STRING, .SET⟩),
   ("app:thing:seq", ⟨"seq", "app:thing:seq", .INT, .LIST⟩)]

/-- The `app` unit entity (id 1 under the foundational `entity` unit). -/
def c9_unit_est : EState :=
  ⟨[(id_cnt_gfn, .scalar (.int 4)), (unit_name_gfn, .scalar (.str "app"))], .pybool false⟩

/-- A bootstrapped store: the unit registered, the `thing` meta-type
registered under its global id. -/
def c9_store : Store :=
  ⟨[("entity:1:unit", c9_unit_est)],
   [("app", "entity:1:unit"), ("entity", "entity:1:unit")],
   [("app:9:type_meta", "thing")]⟩

/-- The source entity's attribute dict (base fields in
`_add_entity_to_store` order, then the three payload fields). -/
def c9_em (s : String) (x y z a b : PyScalar) : EMap :=
  [(unit_field, .scalar (.str "entity:1:unit")),
   (entity_id_field, .scalar (.int 7)),
   (meta_type_field, .scalar (.str "app:9:type_meta")),
   (committed_field, .scalar (.bool false)),
   ("app:thing:title", .scalar (.str s)),
   ("app:thing:tags", .set [x, y, z]),
   ("app:thing:seq", .list [a, b, a])]

/-- The flat JSON form: identical except the SET serializes as an array. -/
def c9_jm (s : String) (x y z a b : PyScalar) : List (String × PyVal) :=
  [(unit_field, .scalar (.str "entity:1:unit")),
   (entity_id_field, .scalar (.int 7)),
   (meta_type_field, .scalar (.str "app:9:type_meta")),
   (committed_field, .scalar (.bool false)),
   ("app:thing:title", .scalar (.str s)),
   ("app:thing:tags", .list [x, y, z]),
   ("app:thing:seq", .list [a, b, a])]

/-- The rehydrated entity state. -/
def c9_est (s : String) (x y z a b : PyScalar) : EState :=
  ⟨[(unit_field, .scalar (.str "entity:1:unit")),
    (entity_id_field, .scalar (.int 7)),
    (meta_type_field, .scalar (.str "app:9:type_meta")),
    (committed_field, .scalar (.bool false)),
    ("app:thing:title", .scalar (.str s)),
    ("app:thing:tags", .set [x, y, z]),
    ("app:thing:seq", .list [a, b, a])], .pybool false⟩

/-- The store after deserialization. -/
def c9_st9 (s : String) (x y z a b : PyScalar) : Store :=
  ⟨[("entity:1:unit", c9_unit_est), ("app:7:thing", c9_est s x y z a b)],
   c9_store.units, c9_store.type_names⟩

/-- C9: serializing an entity with one SINGLE string field, one SET field
of 3 distinct values and one LIST field `[a, b, a]` through
`Entity.to_json` and replaying through `Entity.from_json` rehydrates the
entity at the same (unit, id, meta-type) address, and GET on each of the
three fields returns the original value (the SET field is rebuilt through
set coercion, the LIST field keeps its order and its duplicate).  The
hypothesis on `s` says it is a plain string, not a three-part global id —
GET would dereference the latter. -/
theorem serializer_roundtrip_preserves_fields
    (s : String) (x y z a b : PyScalar)
    (hxy : x ≠ y) (hxz : x ≠ z) (hyz : y ≠ z)
    (hs : (pySplitColon s)[1]?.bind pyStrToInt = Option.none) :
    to_json c9_schema (c9_em s x y z a b) = some (c9_jm s x y z a b) ∧
    from_json c9_schema c9_store (c9_jm s x y z a b) =
      .ok (c9_st9 s x y z a b, "app:7:thing") ∧
    store_access_field (c9_st9 s x y z a b) "app:7:thing"
        ⟨"title", "app:thing:title", .STRING, .SINGLE⟩ .GET (.scalar .none) =
      .ok (c9_st9 s x y z a b, false, .scalar (.str s)) ∧
    store_access_field (c9_st9 s x y z a b) "app:7:thing"
        ⟨"tags", "app:thing:tags", .STRING, .SET⟩ .GET (.scalar .none) =
      .ok (c9_st9 s x y z a b, false, .set [x, y, z]) ∧
    store_access_field (c9_st9 s x y z a b) "app:7:thing"
        ⟨"seq", "app:thing:seq", .INT, .LIST⟩ .GET (.scalar .none) =
      .ok (c9_st9 s x y z a b, false, .list [a, b, a]) := by
  have hyx := Ne.symm hxy
  have hzx := Ne.symm hxz
  have hzy := Ne.symm hyz
  have hsplit : (pySplitColon "entity:1:unit")[1]?.bind pyStrToInt = some 1 := by
    decide
  have hdedup : pySetOf [x, y, z] = [x, y, z] := by
    simp [pySetOf, pySetUpdate, pySetAdd, pyMemScalar, pyEqScalar, hyx, hzx, hzy]
  have ht1 : toString (1 : Int) = "1" := rfl
  have ht7 : toString (7 : Int) = "7" := rfl
  have hsp_app : (pySplitColon "app")[1]?.bind pyStrToInt = (Option.none : Option Int) := by
    decide
  refine ⟨?_, ?_, ?_, ?_, ?_⟩
  · simp [to_json, c9_schema, c9_em, c9_jm, List.lookup, unit_field,
      entity_id_field, meta_type_field, committed_field]
  · simp [from_json, c9_jm, c9_schema, List.lookup, ht1, ht7, hsp_app,
      hsplit, hdedup, hs, c9_store, c9_unit_est, c9_st9, c9_est,
      store_get_or_create, store_access_field, storeGet, storeMapGet,
      storeSet, storeMapSet, access_data_get_value, access_data_set_value,
      access_set_generic, resolve_global_id, emapGet, emapSet, estWrite,
      set_uncommitted, unit_name_field, unit_type_gid, pyEq, pyEqScalar,
      except_bind_ok, unit_field, entity_id_field, meta_type_field,
      committed_field, id_cnt_gfn, unit_name_gfn, List.foldlM_cons,
      List.foldlM_nil]
  · simp [store_access_field, c9_st9, c9_est, storeGet, storeMapGet,
      access_data_get_value, emapGet, resolve_global_id, hs,
      except_bind_ok, unit_field, entity_id_field, meta_type_field,
      committed_field]
  · simp [store_access_field, c9_st9, c9_est, storeGet, storeMapGet,
      access_data_get_value, emapGet, except_bind_ok, unit_field,
      entity_id_field, meta_type_field, committed_field]
  · simp [store_access_field, c9_st9, c9_est, storeGet, storeMapGet,
      access_data_get_value, emapGet, except_bind_ok, unit_field,
      entity_id_field, meta_type_field, committed_field]

/-- C9 witness. -/
theorem serializer_roundtrip_preserves_fields_witness :
    to_json c9_schema (c9_em "hello" (.int 1) (.int 2) (.int 3) (.str "a") (.str "b")) =
      some (c9_jm "hello" (.int 1) (.int 2) (.int 3) (.str "a") (.str "b")) ∧
    from_json c9_schema c9_store
        (c9_jm "hello" (.int 1) (.int 2) (.int 3) (.str "a") (.str "b")) =
      .ok (c9_st9 "hello" (.int 1) (.int 2) (.int 3) (.str "a") (.str "b"),
           "app:7:thing") := by
  have h := serializer_roundtrip_preserves_fields "hello"
    (.int 1) (.int 2) (.int 3) (.str "a") (.str "b")
    (by decide) (by decide) (by decide) (by decide)
  exact ⟨h.1, h.2.1⟩

/-- C10 witness. -/
theorem underscore_types_registered_but_never_mapped_witness :
    "_entity_base" ∈ generate_schema_persisted
        [⟨"type_meta", []⟩, ⟨"_entity_base", []⟩] ∧
    generate_schema_tables "entity" [⟨"type_meta", []⟩, ⟨"_entity_base", []⟩] =
      generate_schema_tables "entity"
        (([⟨"type_meta", []⟩, ⟨"_entity_base", []⟩] : List MetaDesc).filter
          (fun x => !starts_with_underscore x.type_name)) ∧
    load_type ⟨"_entity_base", []⟩ (fun _ => ["would-have-loaded"]) = [] :=
  underscore_types_registered_but_never_mapped "entity"
    [⟨"type_meta", []⟩, ⟨"_entity_base", []⟩] ⟨"_entity_base", []⟩
    (fun _ => ["would-have-loaded"]) (by simp) (by decide)

end Pydust
